import Mathlib

/-
Verification of the educational-tools repository: the PEP 8 Quiz Arcade
(src/arcade.py) and the LLM-backed code-quality checker (src/code_checker.py).

The arcade's Streamlit session state is embedded as an explicit record
`Arcade.SessionState`; each user interaction (button click, radio submit)
becomes an `Arcade.Event`, and `Arcade.step` models one Streamlit run:
the clicked widget's handler followed by the script's render-phase effects
(the skip auto-advance, the lazy one-shot 50/50 application, and the badge
evaluation on the results screen).  Randomness (random.sample) is embedded
as an explicit index-choice function.  Coins are modelled as integers so
that non-negativity is a meaningful property; counters are naturals.
-/

namespace Arcade

/-! ## Quiz and game configuration constants (src/arcade.py lines 17-32) -/

def DEFAULT_NUM_QUESTIONS : Nat := 7
def MIN_QUESTIONS_PER_GAME : Nat := 3
def MAX_QUESTIONS_PER_GAME : Nat := 10

def BASE_COIN_REWARD : Nat := 5
def MAX_STREAK_BONUS : Nat := 5

def HINT_COST : Int := 3
def SKIP_COST : Int := 4
def FIFTY_FIFTY_COST : Int := 5

def BADGE_SCORE_APPRENTICE : Nat := 5
def BADGE_SCORE_PRO : Nat := 7
def BADGE_STREAK_THRESHOLD : Nat := 3

def BADGE_MONSTER_COLLECTOR : String := "✨ Monster Collector"

/-- Typed representation of a quiz question (the Question TypedDict). -/
structure Question where
  id : String
  prompt : String
  code : Option String
  options : List String
  answer_idx : Nat
  explanation : String
  topic : String
  deriving DecidableEq, Repr

/-- Typed representation of a cosmetic monster shown in the UI. -/
structure Monster where
  id : String
  name : String
  emoji : String
  price : Int
  description : String
  image : String
  deriving DecidableEq, Repr

/-- The static question bank QUESTION_POOL (20 questions); the code snippets
are embedded after textwrap.dedent(...).strip() has been applied. -/
def QUESTION_POOL : List Question := [
  { id := "line_length",
    prompt := "What is the recommended maximum line length in PEP 8?",
    code := none,
    options := ["79 characters", "99 characters", "120 characters", "60 characters"],
    answer_idx := 0,
    explanation := "PEP 8 recommends limiting all lines to a maximum of 79 characters.",
    topic := "Formatting" },
  { id := "imports_order",
    prompt := "Which import order is PEP 8 compliant?",
    code := some "# Option A\nimport numpy as np\nimport os\nfrom my_app import utils",
    options := [
      "Standard library -> third-party -> local application imports",
      "Third-party -> standard library -> local application imports",
      "Local -> third-party -> standard library imports",
      "Any order is fine"],
    answer_idx := 0,
    explanation := "PEP 8 recommends: standard library imports first, then third-party, then local imports.",
    topic := "Imports" },
  { id := "naming_functions",
    prompt := "Which function name follows PEP 8 naming conventions?",
    code := none,
    options := [
      "calculateTotal()",
      "calculate_total()",
      "CalculateTotal()",
      "calculate-Total()"],
    answer_idx := 1,
    explanation := "Functions should be lowercase with words separated by underscores: 'calculate_total'.",
    topic := "Naming" },
  { id := "whitespace",
    prompt := "Which snippet is more PEP 8 compliant regarding whitespace around operators?",
    code := some "# Version 1\nx=1+2*3\n\n# Version 2\nx = 1 + 2 * 3",
    options := ["Version 1", "Version 2", "Both are equally recommended", "Neither"],
    answer_idx := 1,
    explanation := "PEP 8 recommends spaces around operators to improve readability.",
    topic := "Formatting" },
  { id := "docstring",
    prompt := "Where should a function docstring be placed?",
    code := some "def add(a, b):\n    # Adds two numbers\n    return a + b",
    options := [
      "As a comment above the function",
      "As the first statement inside the function (triple quotes)",
      "In a separate README file only",
      "Docstrings are only for classes, not functions"],
    answer_idx := 1,
    explanation := "A docstring is placed as the first statement inside the function using triple quotes.",
    topic := "Docstrings" },
  { id := "comparisons",
    prompt := "PEP 8 recommends comparing to None using:",
    code := none,
    options := ["== None", "!= None", "is None", "equals(None)"],
    answer_idx := 2,
    explanation := "Use 'is None' and 'is not None' for comparisons with None.",
    topic := "Best practices" },
  { id := "trailing_whitespace",
    prompt := "What does PEP 8 say about trailing whitespace?",
    code := none,
    options := [
      "It is recommended for alignment",
      "It is allowed only in comments",
      "It should be avoided",
      "It should be used after commas"],
    answer_idx := 2,
    explanation := "Trailing whitespace should be avoided because it is unnecessary and creates noise in diffs.",
    topic := "Formatting" },
  { id := "indentation",
    prompt := "What is the preferred indentation style in PEP 8?",
    code := none,
    options := ["2 spaces", "4 spaces", "Tabs only", "Mix of tabs and spaces"],
    answer_idx := 1,
    explanation := "PEP 8 recommends using 4 spaces per indentation level.",
    topic := "Formatting" },
  { id := "tabs_vs_spaces",
    prompt := "What does PEP 8 recommend for indentation characters?",
    code := none,
    options := [
      "Tabs only",
      "Spaces only",
      "Either tabs or spaces, mixing is fine",
      "Mixing tabs and spaces is recommended"],
    answer_idx := 1,
    explanation := "PEP 8 recommends using spaces rather than tabs for indentation.",
    topic := "Formatting" },
  { id := "class_naming",
    prompt := "Which class name follows PEP 8 conventions?",
    code := none,
    options := ["myclass", "MyClass", "my_class", "MYCLASS"],
    answer_idx := 1,
    explanation := "Classes normally use CapWords (PascalCase) convention: 'MyClass'.",
    topic := "Naming" },
  { id := "constant_naming",
    prompt := "How should constants be named according to PEP 8?",
    code := none,
    options := ["maxValue", "MAX_VALUE", "MaxValue", "max_value"],
    answer_idx := 1,
    explanation := "Constants are typically written in all caps with underscores: 'MAX_VALUE'.",
    topic := "Naming" },
  { id := "blank_lines",
    prompt := "How many blank lines should typically separate top-level function definitions?",
    code := none,
    options := ["0", "1", "2", "4"],
    answer_idx := 2,
    explanation := "Two blank lines are recommended between top-level function and class definitions.",
    topic := "Layout" },
  { id := "spaces_after_comma",
    prompt := "Which list formatting is more PEP 8 compliant?",
    code := some "# Version 1\nnums = [1,2,3,4]\n\n# Version 2\nnums = [1, 2, 3, 4]",
    options := ["Version 1", "Version 2", "Both are fine", "Neither"],
    answer_idx := 1,
    explanation := "A space after each comma in lists and tuples improves readability.",
    topic := "Formatting" },
  { id := "boolean_singleton",
    prompt := "How should you check if a value is True according to PEP 8?",
    code := none,
    options := [
      "if x == True:",
      "if x is True:",
      "if x:",
      "if bool(x) == True:"],
    answer_idx := 2,
    explanation := "Use 'if x:' rather than explicit comparisons to True.",
    topic := "Best practices" },
  { id := "imports_at_top",
    prompt := "Where should imports generally be placed according to PEP 8?",
    code := none,
    options := [
      "Spread throughout the file where needed",
      "Inside functions only",
      "At the top of the file, after any module comments and docstrings",
      "At the bottom of the file"],
    answer_idx := 2,
    explanation := "Imports should be placed at the top of the file, after module comments and docstrings.",
    topic := "Imports" },
  { id := "inline_comments",
    prompt := "Which inline comment is more PEP 8 compliant?",
    code := some "# Version 1\nx = x + 1 #increment x\n\n# Version 2\nx = x + 1  # increment x",
    options := ["Version 1", "Version 2", "Both are fine", "Neither"],
    answer_idx := 1,
    explanation := "Inline comments should be separated from code by at least two spaces and start with a single space.",
    topic := "Comments" },
  { id := "docstring_quotes",
    prompt := "What is the recommended quoting style for docstrings?",
    code := none,
    options := [
      "Single quotes: '''docstring'''",
      "Double quotes: \"\"\"docstring\"\"\"",
      "Either, but triple double quotes are recommended",
      "Single line comments instead of docstrings"],
    answer_idx := 2,
    explanation := "Triple double quotes are recommended for docstrings.",
    topic := "Docstrings" },
  { id := "module_naming",
    prompt := "Which module name best follows PEP 8?",
    code := none,
    options := ["MyModule.py", "mymodule.py", "myModule.py", "MYMODULE.py"],
    answer_idx := 1,
    explanation := "Modules should have short, lowercase names, optionally with underscores if necessary.",
    topic := "Naming" },
  { id := "complicated_expressions",
    prompt := "What does PEP 8 suggest for very complicated expressions?",
    code := none,
    options := [
      "Write them on one line, no matter the length",
      "Add more comments, but keep them as one expression",
      "Break them into smaller, named variables or helper functions",
      "Avoid using them at all"],
    answer_idx := 2,
    explanation := "Complicated expressions should be split into smaller parts or helper functions to improve readability.",
    topic := "Readability" },
  { id := "shebang_encoding",
    prompt := "Where should encoding declarations (if needed) appear in a Python file?",
    code := none,
    options := [
      "Anywhere in the file",
      "At the bottom of the file",
      "On the first or second line",
      "Inside the main() function"],
    answer_idx := 2,
    explanation := "Encoding declarations must be placed on the first or second line of the file.",
    topic := "Encoding" }]

/-- The monster shop catalog MONSTER_SHOP (4 cosmetic monsters). -/
def MONSTER_SHOP : List Monster := [
  { id := "pep_snek",
    name := "PEP Snek",
    emoji := "🐍",
    price := 20,
    description := "Monster associated with short, readable lines of code.",
    image := "1.jpg" },
  { id := "lint_lizard",
    name := "Lint Lizard",
    emoji := "🦎",
    price := 35,
    description := "Monster associated with finding style issues in code.",
    image := "2.jpg" },
  { id := "docstring_dragon",
    name := "Docstring Dragon",
    emoji := "🐲",
    price := 50,
    description := "Monster associated with well-documented functions and modules.",
    image := "3.jpg" },
  { id := "whitespace_wraith",
    name := "Whitespace Wraith",
    emoji := "👻",
    price := 60,
    description := "Monster associated with clean spacing and layout in code.",
    image := "4.jpg" }]

/-- Return the monster entry for a given monster identifier (get_monster). -/
def get_monster (monster_id : String) : Option Monster :=
  MONSTER_SHOP.find? (fun monster => monster.id = monster_id)

/-! ## A model of random.sample -/

/-- One draw without replacement: remove and return the element at position i
of the remaining pool (none when the index is out of range). -/
def pickAt {α : Type} : Nat → List α → Option (α × List α)
  | _, [] => none
  | 0, x :: xs => some (x, xs)
  | n + 1, x :: xs => (pickAt n xs).map (fun p => (p.1, x :: p.2))

/-- random.sample(pool, k), with the randomness supplied as an index-choice
function: at each step one element of the remaining pool is drawn without
replacement (the choice is reduced modulo the remaining pool size, so every
choice function yields a valid draw and every draw is reachable by some
choice function). -/
def sample {α : Type} (choose : Nat → Nat) : Nat → List α → List α
  | 0, _ => []
  | _ + 1, [] => []
  | k + 1, x :: xs =>
    match pickAt (choose k % (x :: xs).length) (x :: xs) with
    | none => []
    | some (a, rest) => a :: sample choose k rest

/-! ## Session state (the st.session_state keys used by arcade.py) -/

/-- The Streamlit session state of the arcade page.  Python sets
(eliminated_options, badges) are modelled as duplicate-free lists; the coin
balance is an integer so that non-negativity is meaningful. -/
structure SessionState where
  started : Bool
  num_questions : Nat
  question_ids : List String
  q_index : Nat
  score : Nat
  coins : Int
  streak : Nat
  answered : Bool
  last_correct : Option Bool
  used_5050 : Bool
  eliminated_options : List Nat
  hints_used : Nat
  skips_used : Nat
  badges : List String
  shop_buys : List String
  show_hint : Bool
  monsters_owned : List String
  selected_monster : Option String
  deriving DecidableEq, Repr

/-- set.add on the model of a Python set: append the element unless present. -/
def setAdd (x : String) (s : List String) : List String :=
  if x ∈ s then s else s ++ [x]

/-- init_state: the default values installed for every missing session key. -/
def init_state : SessionState :=
  { started := false
    num_questions := DEFAULT_NUM_QUESTIONS
    question_ids := []
    q_index := 0
    score := 0
    coins := 0
    streak := 0
    answered := false
    last_correct := none
    used_5050 := false
    eliminated_options := []
    hints_used := 0
    skips_used := 0
    badges := []
    shop_buys := []
    show_hint := false
    monsters_owned := []
    selected_monster := none }

/-- start_new_game: reset every per-game counter and flag, then sample
min(num_questions, len(QUESTION_POOL)) question ids without replacement.
Owned monsters and the selected monster are not touched. -/
def start_new_game (choose : Nat → Nat) (s : SessionState) : SessionState :=
  let num_questions := min s.num_questions QUESTION_POOL.length
  let picked_ids := sample choose num_questions (QUESTION_POOL.map Question.id)
  { s with
    started := true
    score := 0
    coins := 0
    streak := 0
    q_index := 0
    answered := false
    last_correct := none
    used_5050 := false
    eliminated_options := []
    hints_used := 0
    skips_used := 0
    badges := []
    shop_buys := []
    show_hint := false
    question_ids := picked_ids }

/-- get_question_by_id: retrieve a question from the pool by identifier
(none models the KeyError raised for an unknown id). -/
def get_question_by_id (question_id : String) : Option Question :=
  QUESTION_POOL.find? (fun question => question.id = question_id)

/-- award_badges: end-of-quiz badge evaluation.  Each branch only adds a
badge string to the badges set; each condition reads counters that no
branch modifies, so reading them from the incoming state is faithful. -/
def award_badges (s : SessionState) : SessionState :=
  let b1 := if BADGE_SCORE_APPRENTICE ≤ s.score then setAdd "🏅 PEP Apprentice" s.badges else s.badges
  let b2 := if BADGE_SCORE_PRO ≤ s.score then setAdd "🥇 PEP Pro" b1 else b1
  let b3 := if BADGE_STREAK_THRESHOLD ≤ s.streak then setAdd "🔥 Streak Master (3+)" b2 else b2
  let b4 := if s.hints_used = 0 ∧ s.q_index = s.question_ids.length then setAdd "🧠 No-Hint Hero" b3 else b3
  let b5 := if s.used_5050 = true then setAdd "🪓 50/50 User" b4 else b4
  { s with badges := b5 }

/-- reset_question_powerups: clear the per-question power-up state when
moving to a new question. -/
def reset_question_powerups (s : SessionState) : SessionState :=
  { s with
    answered := false
    used_5050 := false
    eliminated_options := []
    show_hint := false
    shop_buys := [] }

/-- apply_5050: randomly eliminate min(2, number of wrong options) incorrect
option indices of the given question and mark the power-up as used. -/
def apply_5050 (choose : Nat → Nat) (question : Question) (s : SessionState) : SessionState :=
  let wrong_indices := (List.range question.options.length).filter (fun index => index ≠ question.answer_idx)
  let num_to_eliminate := min 2 wrong_indices.length
  let eliminated := sample choose num_to_eliminate wrong_indices
  { s with eliminated_options := eliminated, used_5050 := true }

/-- get_visible_option_indices: all option indices, or the non-eliminated
ones once 50/50 has been used. -/
def get_visible_option_indices (question : Question) (s : SessionState) : List Nat :=
  if s.used_5050 = false then List.range question.options.length
  else (List.range question.options.length).filter (fun index => index ∉ s.eliminated_options)

/-- coins_for_correct: base reward plus the streak bonus, the bonus capped
at MAX_STREAK_BONUS. -/
def coins_for_correct (s : SessionState) : Nat :=
  BASE_COIN_REWARD + min s.streak MAX_STREAK_BONUS

/-! ## The event loop of main() -/

/-- The Submit handler: lock in the choice made among the visible options,
map it back to the true option index, then score it.  On a correct answer
the code increments score and streak first and only then computes the coin
reward, so the reward already sees the incremented streak.  A lookup
failure (out-of-range index or unknown question id, impossible in the UI)
leaves the state unchanged, matching a Python exception raised before any
mutation. -/
def submit_answer (selected_index : Nat) (s : SessionState) : SessionState :=
  if s.started = true ∧ s.answered = false ∧ s.q_index < s.question_ids.length then
    match s.question_ids[s.q_index]? with
    | none => s
    | some question_id =>
      match get_question_by_id question_id with
      | none => s
      | some question =>
        match (get_visible_option_indices question s)[selected_index]? with
        | none => s
        | some chosen_original_idx =>
          if chosen_original_idx = question.answer_idx then
            let t := { s with
              answered := true
              last_correct := some true
              score := s.score + 1
              streak := s.streak + 1 }
            { t with coins := t.coins + (coins_for_correct t : Int) }
          else
            { s with answered := true, last_correct := some false, streak := 0 }
  else s

/-- The lazy one-shot 50/50 application at question render time: when a
purchased 50/50 is pending in shop_buys and the power-up has not been used
on this question, remove the pending entry and apply it. -/
def lazy_5050 (choose : Nat → Nat) (s : SessionState) : SessionState :=
  if "50/50" ∈ s.shop_buys ∧ s.used_5050 = false then
    match s.question_ids[s.q_index]? with
    | none => s
    | some question_id =>
      match get_question_by_id question_id with
      | none => s
      | some question => apply_5050 choose question { s with shop_buys := s.shop_buys.erase "50/50" }
  else s

/-- The skip auto-advance of main(): a question answered with no recorded
outcome advances to the next question and triggers a rerun. -/
def auto_advance (s : SessionState) : SessionState :=
  if s.answered = true ∧ s.last_correct = none ∧ s.q_index < s.question_ids.length then
    reset_question_powerups { s with q_index := s.q_index + 1 }
  else s

/-- The part of the script after the auto-advance check: either the results
screen (which evaluates badges) or the question screen (which applies a
pending 50/50 purchase exactly once). -/
def render_question_or_results (choose : Nat → Nat) (t : SessionState) : SessionState :=
  if t.question_ids.length ≤ t.q_index then award_badges t
  else lazy_5050 choose t

/-- The render-phase effects of one script run of main(), after any clicked
widget handler: the skip auto-advance (followed by its rerun), then either
the results screen or the question screen. -/
def render_game (choose : Nat → Nat) (s : SessionState) : SessionState :=
  if s.started = false then s
  else render_question_or_results choose (auto_advance s)

/-- One user interaction with the page: a widget click or a radio submit. -/
inductive Event where
  | setNumQuestions (n : Nat)
  | clickNewGame
  | clickHint
  | clickSkip
  | clickFiftyFifty
  | submit (selected_index : Nat)
  | next
  | buyMonster (monster_id : String)
  | selectMonster (monster_id : String)
  deriving DecidableEq, Repr

/-- One Streamlit run triggered by a user interaction: the clicked widget's
handler (a disabled widget cannot fire, so its guard makes the event a
no-op) followed by the render-phase effects of the run and of any rerun it
triggers.  The guards are the negations of each button's disabled
condition in main(). -/
def step (choose : Nat → Nat) (e : Event) (s : SessionState) : SessionState :=
  match e with
  | .setNumQuestions n =>
    let clamped := max MIN_QUESTIONS_PER_GAME (min (min MAX_QUESTIONS_PER_GAME QUESTION_POOL.length) n)
    render_game choose { s with num_questions := clamped }
  | .clickNewGame => render_game choose (start_new_game choose s)
  | .clickHint =>
    if HINT_COST ≤ s.coins ∧ s.started = true ∧ s.answered = false then
      render_game choose { s with
        coins := s.coins - HINT_COST
        hints_used := s.hints_used + 1
        shop_buys := s.shop_buys ++ ["Hint"]
        show_hint := true }
    else s
  | .clickSkip =>
    if SKIP_COST ≤ s.coins ∧ s.started = true ∧ s.answered = false then
      render_game choose { s with
        coins := s.coins - SKIP_COST
        skips_used := s.skips_used + 1
        shop_buys := s.shop_buys ++ ["Skip"]
        last_correct := none
        streak := 0
        answered := true }
    else s
  | .clickFiftyFifty =>
    if FIFTY_FIFTY_COST ≤ s.coins ∧ s.started = true ∧ s.answered = false ∧ s.used_5050 = false then
      render_game choose { s with
        coins := s.coins - FIFTY_FIFTY_COST
        shop_buys := s.shop_buys ++ ["50/50"] }
    else s
  | .submit selected_index => render_game choose (submit_answer selected_index s)
  | .next =>
    if s.started = true ∧ s.answered = true ∧ s.q_index < s.question_ids.length then
      render_game choose (reset_question_powerups { s with q_index := s.q_index + 1 })
    else s
  | .buyMonster monster_id =>
    match get_monster monster_id with
    | none => s
    | some monster =>
      if monster_id ∉ s.monsters_owned ∧ monster.price ≤ s.coins then
        render_game choose { s with
          coins := s.coins - monster.price
          monsters_owned := s.monsters_owned ++ [monster_id]
          selected_monster := some monster_id
          badges := setAdd BADGE_MONSTER_COLLECTOR s.badges }
      else s
  | .selectMonster monster_id =>
    if monster_id ∈ s.monsters_owned then
      render_game choose { s with selected_monster := some monster_id }
    else s

/-- Fold a sequence of user interactions over the session state. -/
def run_events (choose : Nat → Nat) (s : SessionState) (evs : List Event) : SessionState :=
  evs.foldl (fun t e => step choose e t) s

/-- startGame(questionCount) of the spec: the questions-per-game slider
clamps the requested count to [MIN_QUESTIONS_PER_GAME,
min(MAX_QUESTIONS_PER_GAME, bank size)] and the New game button then runs
start_new_game on the clamped value. -/
def startGame (choose : Nat → Nat) (questionCount : Nat) (s : SessionState) : SessionState :=
  let clamped := max MIN_QUESTIONS_PER_GAME (min (min MAX_QUESTIONS_PER_GAME QUESTION_POOL.length) questionCount)
  start_new_game choose { s with num_questions := clamped }

/-! ## Concrete scenario runs -/

/-- A full seven-question game in which every question is answered
correctly and nothing is spent (the constant index-choice 0 always draws
the first remaining question, so the drawn questions are the first seven
of the bank, in order). -/
def perfect_game_run : SessionState :=
  run_events (fun _ => 0) init_state
    [.clickNewGame, .submit 0, .next, .submit 0, .next, .submit 1, .next, .submit 1, .next,
     .submit 1, .next, .submit 2, .next, .submit 2, .next]

/-- A three-question game up to (and including) buying the 50/50 power-up
on the second question. -/
def fifty_fifty_purchase_events : List Event :=
  [.setNumQuestions 3, .clickNewGame, .submit 0, .next, .clickFiftyFifty]

/-- The same three-question game completed: both remaining questions are
answered correctly and the results screen is reached. -/
def fifty_fifty_game_run : SessionState :=
  run_events (fun _ => 0) init_state
    (fifty_fifty_purchase_events ++ [.submit 0, .next, .submit 1, .next])

/-- A four-question game up to the third consecutive correct answer. -/
def streak_reset_prefix_events : List Event :=
  [.setNumQuestions 4, .clickNewGame, .submit 0, .next, .submit 0, .next, .submit 1]

/-- The state right after the third consecutive correct answer. -/
def streak_reset_mid_run : SessionState :=
  run_events (fun _ => 0) init_state streak_reset_prefix_events

/-- The same four-question game completed: the fourth answer is wrong, so
the streak is 0 when the results screen evaluates badges. -/
def streak_reset_game_run : SessionState :=
  run_events (fun _ => 0) init_state
    (streak_reset_prefix_events ++ [.next, .submit 0, .next])

end Arcade

namespace CodeChecker

/-- The outcome of the chat-completion API call made by run_analysis: an
exception message or the content string of the first choice. -/
def ApiResponse : Type := Except String String

/-- The parsed analysis JSON object, as a key/value list; the empty list
models the empty dictionary (which is falsy in Python). -/
def AnalysisDict : Type := List (String × String)

/-- run_analysis: send the analysis request and json.loads the content.
Any exception (the network call failing, or json.loads rejecting the
content) is caught: an error is shown and the empty dictionary returned.
The Bool records whether st.error was called. -/
def run_analysis (response : Except String String)
    (parse : String → Except String (List (String × String))) :
    List (String × String) × Bool :=
  match response with
  | .error _ => ([], true)
  | .ok content =>
    match parse content with
    | .error _ => ([], true)
    | .ok parsed => (parsed, false)

/-- Whether main() reaches the run_refactor call: after run_analysis it
returns early on an empty analysis result, and otherwise runs the refactor
step only when the sidebar checkbox is set. -/
def refactor_runs (response : Except String String)
    (parse : String → Except String (List (String × String)))
    (generate_refactor : Bool) : Bool :=
  let analysis_result := (run_analysis response parse).1
  if analysis_result = [] then false else generate_refactor

end CodeChecker

namespace Arcade

/-! ## Properties of the random.sample model -/

theorem pickAt_perm {α : Type} : ∀ (i : Nat) (l : List α) (a : α) (r : List α),
    pickAt i l = some (a, r) → l.Perm (a :: r) := by
  intro i l
  induction l generalizing i with
  | nil => intro a r h; simp [pickAt] at h
  | cons x xs ih =>
    intro a r h
    cases i with
    | zero =>
      simp [pickAt] at h
      obtain ⟨h1, h2⟩ := h
      subst h1; subst h2
      exact List.Perm.refl _
    | succ n =>
      simp only [pickAt, Option.map_eq_some'] at h
      obtain ⟨⟨b, t⟩, hp, heq⟩ := h
      simp only [Prod.mk.injEq] at heq
      obtain ⟨hb, ht⟩ := heq
      rw [← hb, ← ht]
      exact (List.Perm.cons x (ih n b t hp)).trans (List.Perm.swap b x t)

theorem pickAt_lt_isSome {α : Type} : ∀ (i : Nat) (l : List α), i < l.length →
    ∃ a r, pickAt i l = some (a, r) := by
  intro i l
  induction l generalizing i with
  | nil => intro h; simp at h
  | cons x xs ih =>
    intro h
    cases i with
    | zero => exact ⟨x, xs, rfl⟩
    | succ n =>
      obtain ⟨a, r, hp⟩ := ih n (by simpa using Nat.lt_of_succ_lt_succ h)
      exact ⟨a, x :: r, by simp [pickAt, hp]⟩

/-- random.sample(pool, k) returns min(k, len(pool)) elements. -/
theorem sample_length {α : Type} (choose : Nat → Nat) :
    ∀ (k : Nat) (l : List α), (sample choose k l).length = min k l.length := by
  intro k
  induction k with
  | zero => intro l; simp [sample]
  | succ k ih =>
    intro l
    cases l with
    | nil => simp [sample]
    | cons x xs =>
      have hlt : choose k % (x :: xs).length < (x :: xs).length :=
        Nat.mod_lt _ (by simp)
      obtain ⟨a, r, hp⟩ := pickAt_lt_isSome _ _ hlt
      have hlen : (x :: xs).length = (a :: r).length := (pickAt_perm _ _ _ _ hp).length_eq
      simp only [sample, hp]
      simp only [List.length_cons, ih r]
      simp at hlen
      omega

/-- Every sampled element comes from the pool. -/
theorem sample_subset {α : Type} (choose : Nat → Nat) :
    ∀ (k : Nat) (l : List α) (b : α), b ∈ sample choose k l → b ∈ l := by
  intro k
  induction k with
  | zero => intro l b h; simp [sample] at h
  | succ k ih =>
    intro l b h
    cases l with
    | nil => simp [sample] at h
    | cons x xs =>
      have hlt : choose k % (x :: xs).length < (x :: xs).length :=
        Nat.mod_lt _ (by simp)
      obtain ⟨a, r, hp⟩ := pickAt_lt_isSome _ _ hlt
      have hperm := pickAt_perm _ _ _ _ hp
      simp only [sample, hp] at h
      rcases List.mem_cons.mp h with h1 | h1
      · subst h1
        exact hperm.mem_iff.mpr (List.mem_cons_self _ _)
      · exact hperm.mem_iff.mpr (List.mem_cons_of_mem _ (ih r b h1))

/-- Sampling a duplicate-free pool draws without replacement: the result is
duplicate-free. -/
theorem sample_nodup {α : Type} (choose : Nat → Nat) :
    ∀ (k : Nat) (l : List α), l.Nodup → (sample choose k l).Nodup := by
  intro k
  induction k with
  | zero => intro l _; simp [sample]
  | succ k ih =>
    intro l hl
    cases l with
    | nil => simp [sample]
    | cons x xs =>
      have hlt : choose k % (x :: xs).length < (x :: xs).length :=
        Nat.mod_lt _ (by simp)
      obtain ⟨a, r, hp⟩ := pickAt_lt_isSome _ _ hlt
      have hperm := pickAt_perm _ _ _ _ hp
      have har : (a :: r).Nodup := hperm.nodup_iff.mp hl
      simp only [List.nodup_cons] at har
      simp only [sample, hp, List.nodup_cons]
      exact ⟨fun hmem => har.1 (sample_subset choose k r a hmem), ih r har.2⟩

end Arcade

namespace Arcade

/-! ## Frame lemmas: which fields the render phase leaves unchanged -/

theorem award_badges_coins (s : SessionState) : (award_badges s).coins = s.coins := rfl

theorem award_badges_streak (s : SessionState) : (award_badges s).streak = s.streak := rfl

theorem reset_question_powerups_coins (s : SessionState) :
    (reset_question_powerups s).coins = s.coins := rfl

theorem reset_question_powerups_streak (s : SessionState) :
    (reset_question_powerups s).streak = s.streak := rfl

theorem apply_5050_coins (choose : Nat → Nat) (q : Question) (s : SessionState) :
    (apply_5050 choose q s).coins = s.coins := rfl

theorem apply_5050_streak (choose : Nat → Nat) (q : Question) (s : SessionState) :
    (apply_5050 choose q s).streak = s.streak := rfl

theorem lazy_5050_coins (choose : Nat → Nat) (s : SessionState) :
    (lazy_5050 choose s).coins = s.coins := by
  unfold lazy_5050
  split
  · split
    · rfl
    · split
      · rfl
      · rfl
  · rfl

theorem lazy_5050_streak (choose : Nat → Nat) (s : SessionState) :
    (lazy_5050 choose s).streak = s.streak := by
  unfold lazy_5050
  split
  · split
    · rfl
    · split
      · rfl
      · rfl
  · rfl

theorem auto_advance_coins (s : SessionState) : (auto_advance s).coins = s.coins := by
  unfold auto_advance
  split
  · rfl
  · rfl

theorem auto_advance_streak (s : SessionState) : (auto_advance s).streak = s.streak := by
  unfold auto_advance
  split
  · rfl
  · rfl

theorem render_game_coins (choose : Nat → Nat) (s : SessionState) :
    (render_game choose s).coins = s.coins := by
  unfold render_game render_question_or_results
  split
  · rfl
  · split
    · rw [award_badges_coins, auto_advance_coins]
    · rw [lazy_5050_coins, auto_advance_coins]

theorem render_game_streak (choose : Nat → Nat) (s : SessionState) :
    (render_game choose s).streak = s.streak := by
  unfold render_game render_question_or_results
  split
  · rfl
  · split
    · rw [award_badges_streak, auto_advance_streak]
    · rw [lazy_5050_streak, auto_advance_streak]

theorem start_new_game_coins (choose : Nat → Nat) (s : SessionState) :
    (start_new_game choose s).coins = 0 := rfl

theorem submit_answer_coins_ge (i : Nat) (s : SessionState) :
    s.coins ≤ (submit_answer i s).coins := by
  unfold submit_answer
  split
  · split
    · exact le_refl _
    · split
      · exact le_refl _
      · split
        · exact le_refl _
        · split
          · exact le_add_of_nonneg_right (Int.natCast_nonneg _)
          · exact le_refl _
  · exact le_refl _

theorem step_coins_nonneg (choose : Nat → Nat) (e : Event) (s : SessionState)
    (h : 0 ≤ s.coins) : 0 ≤ (step choose e s).coins := by
  cases e with
  | setNumQuestions n =>
    simp only [step]
    rw [render_game_coins]
    exact h
  | clickNewGame =>
    simp only [step]
    rw [render_game_coins, start_new_game_coins]
  | clickHint =>
    simp only [step]
    split
    · rename_i hg
      rw [render_game_coins]
      obtain ⟨h1, -, -⟩ := hg
      show 0 ≤ s.coins - HINT_COST
      omega
    · exact h
  | clickSkip =>
    simp only [step]
    split
    · rename_i hg
      rw [render_game_coins]
      obtain ⟨h1, -, -⟩ := hg
      show 0 ≤ s.coins - SKIP_COST
      omega
    · exact h
  | clickFiftyFifty =>
    simp only [step]
    split
    · rename_i hg
      rw [render_game_coins]
      obtain ⟨h1, -, -, -⟩ := hg
      show 0 ≤ s.coins - FIFTY_FIFTY_COST
      omega
    · exact h
  | submit i =>
    simp only [step]
    rw [render_game_coins]
    exact le_trans h (submit_answer_coins_ge i s)
  | next =>
    simp only [step]
    split
    · rw [render_game_coins, reset_question_powerups_coins]
      exact h
    · exact h
  | buyMonster mid =>
    simp only [step]
    split
    · exact h
    · rename_i monster heq
      split
      · rename_i hg
        rw [render_game_coins]
        obtain ⟨-, h2⟩ := hg
        show 0 ≤ s.coins - monster.price
        omega
      · exact h
  | selectMonster mid =>
    simp only [step]
    split
    · rw [render_game_coins]
      exact h
    · exact h

theorem run_events_coins_nonneg (choose : Nat → Nat) (evs : List Event) :
    ∀ (s : SessionState), 0 ≤ s.coins → 0 ≤ (run_events choose s evs).coins := by
  induction evs with
  | nil => intro s h; exact h
  | cons e evs ih =>
    intro s h
    exact ih _ (step_coins_nonneg choose e s h)

theorem mem_setAdd (a x : String) (l : List String) :
    a ∈ setAdd x l ↔ a = x ∨ a ∈ l := by
  unfold setAdd
  split
  · constructor
    · exact fun h => Or.inr h
    · rintro (rfl | h)
      · assumption
      · exact h
  · simp [List.mem_append, or_comm]

end Arcade

namespace Arcade


/-- The question ids of the bank are pairwise distinct. -/
theorem pool_ids_nodup : (QUESTION_POOL.map Question.id).Nodup := by decide

/-- The question order produced by startGame, written out. -/
theorem startGame_question_ids (choose : Nat → Nat) (questionCount : Nat) (s : SessionState) :
    (startGame choose questionCount s).question_ids
      = sample choose
          (min (max MIN_QUESTIONS_PER_GAME (min (min MAX_QUESTIONS_PER_GAME QUESTION_POOL.length) questionCount))
            QUESTION_POOL.length)
          (QUESTION_POOL.map Question.id) := rfl

/-- Every monster of the catalog is found by get_monster under its own id. -/
theorem get_monster_own_id : ∀ monster ∈ MONSTER_SHOP, get_monster monster.id = some monster := by
  decide

end Arcade

/-! ## The claims -/

/-- C1 (counterexample): the claim says start_new_game leaves the coin
balance unchanged; it does not: a session holding 25 coins holds 0 after
start_new_game. -/
theorem C1_counterexample_start_new_game_changes_coins :
    ¬ ((Arcade.start_new_game (fun _ => 0) { Arcade.init_state with coins := 25 }).coins
      = ({ Arcade.init_state with coins := 25 } : Arcade.SessionState).coins) := by
  decide

/-- C1 (amended): start_new_game resets the coin balance to 0 along with
the other per-game counters (coins are a per-game balance, shared by
gameplay rewards and shop spending within a game), while monstersOwned and
selectedMonster persist unchanged. -/
theorem C1_start_new_game_profile_fields (choose : Nat → Nat) (s : Arcade.SessionState) :
    (Arcade.start_new_game choose s).coins = 0
    ∧ (Arcade.start_new_game choose s).monsters_owned = s.monsters_owned
    ∧ (Arcade.start_new_game choose s).selected_monster = s.selected_monster :=
  ⟨rfl, rfl, rfl⟩

/-- C2 (counterexample): in the perfect seven-question game with nothing
spent the final balance is not 55. -/
theorem C2_counterexample_perfect_game_coins_not_55 :
    Arcade.perfect_game_run.score = 7
    ∧ Arcade.perfect_game_run.hints_used = 0
    ∧ Arcade.perfect_game_run.skips_used = 0
    ∧ Arcade.perfect_game_run.q_index = Arcade.perfect_game_run.question_ids.length
    ∧ ¬ Arcade.perfect_game_run.coins = 55 := by
  decide

/-- C2 (amended): the perfect seven-question game draws 7 distinct ids,
ends with score 7 and the Apprentice, Pro and Streak Master badges, and
earns sum of BASE_COIN_REWARD + min(i, MAX_STREAK_BONUS) over i = 1..7
coins, which is 60 (the streak is incremented before the reward is
computed, so question i is rewarded at streak i). -/
theorem C2_perfect_game_scenario :
    Arcade.perfect_game_run.question_ids.length = 7
    ∧ Arcade.perfect_game_run.question_ids.Nodup
    ∧ Arcade.perfect_game_run.score = 7
    ∧ "🏅 PEP Apprentice" ∈ Arcade.perfect_game_run.badges
    ∧ "🥇 PEP Pro" ∈ Arcade.perfect_game_run.badges
    ∧ "🔥 Streak Master (3+)" ∈ Arcade.perfect_game_run.badges
    ∧ Arcade.perfect_game_run.coins
        = ((List.range 7).map (fun i => ((Arcade.BASE_COIN_REWARD + min (i + 1) Arcade.MAX_STREAK_BONUS : Nat) : Int))).sum
    ∧ Arcade.perfect_game_run.coins = 60 := by
  decide

/-- C3 (code bug): the 50/50 power-up is bought and applied on the second
question of a three-question game (used_5050 holds right after the
purchase), the game completes, yet the 50/50 User badge is absent from the
final badge set: reset_question_powerups clears used_5050 on every advance,
so award_badges can never see it set. -/
theorem C3_fifty_fifty_badge_never_awarded :
    (Arcade.run_events (fun _ => 0) Arcade.init_state Arcade.fifty_fifty_purchase_events).used_5050 = true
    ∧ Arcade.fifty_fifty_game_run.q_index = Arcade.fifty_fifty_game_run.question_ids.length
    ∧ "🪓 50/50 User" ∉ Arcade.fifty_fifty_game_run.badges := by
  decide

/-- C4: for every requested count, startGame produces a question order of
exactly clamp(questionCount, MIN_QUESTIONS_PER_GAME,
min(MAX_QUESTIONS_PER_GAME, bank size)) ids, pairwise distinct, all drawn
from the bank, for every randomness. -/
theorem C4_startGame_question_order (choose : Nat → Nat) (questionCount : Nat) (s : Arcade.SessionState) :
    (Arcade.startGame choose questionCount s).question_ids.length
      = min (max questionCount Arcade.MIN_QUESTIONS_PER_GAME)
          (min Arcade.MAX_QUESTIONS_PER_GAME Arcade.QUESTION_POOL.length)
    ∧ (Arcade.startGame choose questionCount s).question_ids.Nodup
    ∧ ∀ qid ∈ (Arcade.startGame choose questionCount s).question_ids,
        qid ∈ Arcade.QUESTION_POOL.map Arcade.Question.id := by
  refine ⟨?_, ?_, ?_⟩
  · rw [Arcade.startGame_question_ids, Arcade.sample_length, List.length_map]
    have h20 : Arcade.QUESTION_POOL.length = 20 := rfl
    rw [h20]
    simp only [Arcade.MIN_QUESTIONS_PER_GAME, Arcade.MAX_QUESTIONS_PER_GAME]
    omega
  · rw [Arcade.startGame_question_ids]
    exact Arcade.sample_nodup _ _ _ Arcade.pool_ids_nodup
  · intro qid hq
    rw [Arcade.startGame_question_ids] at hq
    exact Arcade.sample_subset _ _ _ _ hq

/-- C4 (witness): with the constant index-choice 0 and a request for 7
questions, the first question of the bank is drawn, hence lies in the bank. -/
theorem C4_startGame_question_order_witness :
    "line_length" ∈ Arcade.QUESTION_POOL.map Arcade.Question.id :=
  (C4_startGame_question_order (fun _ => 0) 7 Arcade.init_state).2.2 "line_length" (by decide)

/-- C5: apply_5050 eliminates exactly min(2, number of wrong option
indices) pairwise-distinct option indices, never the correct answer index,
and is total — also on questions with fewer than 3 options. -/
theorem C5_apply_5050_eliminates (choose : Nat → Nat) (question : Arcade.Question) (s : Arcade.SessionState) :
    (Arcade.apply_5050 choose question s).eliminated_options.length
      = min 2 ((List.range question.options.length).filter (fun index => index ≠ question.answer_idx)).length
    ∧ (Arcade.apply_5050 choose question s).eliminated_options.Nodup
    ∧ question.answer_idx ∉ (Arcade.apply_5050 choose question s).eliminated_options
    ∧ (Arcade.apply_5050 choose question s).used_5050 = true := by
  have heq : (Arcade.apply_5050 choose question s).eliminated_options
      = Arcade.sample choose
          (min 2 ((List.range question.options.length).filter (fun index => index ≠ question.answer_idx)).length)
          ((List.range question.options.length).filter (fun index => index ≠ question.answer_idx)) := rfl
  have hwn : ((List.range question.options.length).filter (fun index => index ≠ question.answer_idx)).Nodup :=
    (List.nodup_range _).filter _
  refine ⟨?_, ?_, ?_, rfl⟩
  · rw [heq, Arcade.sample_length]
    omega
  · rw [heq]
    exact Arcade.sample_nodup _ _ _ hwn
  · rw [heq]
    intro hmem
    have hin := Arcade.sample_subset _ _ _ _ hmem
    simp [List.mem_filter] at hin

/-- C6: over any sequence of interaction events a non-negative coin
balance stays non-negative; each purchase action (Hint, Skip, 50/50, buy
monster) is enabled only when the balance covers its cost — a click with
insufficient balance is a no-op — and, when enabled, deducts exactly that
cost. -/
theorem C6_coin_balance_invariant (choose : Nat → Nat) (s : Arcade.SessionState) :
    (∀ evs : List Arcade.Event, 0 ≤ s.coins → 0 ≤ (Arcade.run_events choose s evs).coins)
    ∧ (Arcade.HINT_COST ≤ s.coins ∧ s.started = true ∧ s.answered = false →
        (Arcade.step choose .clickHint s).coins = s.coins - Arcade.HINT_COST)
    ∧ (s.coins < Arcade.HINT_COST → Arcade.step choose .clickHint s = s)
    ∧ (Arcade.SKIP_COST ≤ s.coins ∧ s.started = true ∧ s.answered = false →
        (Arcade.step choose .clickSkip s).coins = s.coins - Arcade.SKIP_COST)
    ∧ (s.coins < Arcade.SKIP_COST → Arcade.step choose .clickSkip s = s)
    ∧ (Arcade.FIFTY_FIFTY_COST ≤ s.coins ∧ s.started = true ∧ s.answered = false ∧ s.used_5050 = false →
        (Arcade.step choose .clickFiftyFifty s).coins = s.coins - Arcade.FIFTY_FIFTY_COST)
    ∧ (s.coins < Arcade.FIFTY_FIFTY_COST → Arcade.step choose .clickFiftyFifty s = s)
    ∧ (∀ monster ∈ Arcade.MONSTER_SHOP, monster.id ∉ s.monsters_owned →
        (monster.price ≤ s.coins →
          (Arcade.step choose (.buyMonster monster.id) s).coins = s.coins - monster.price)
        ∧ (s.coins < monster.price → Arcade.step choose (.buyMonster monster.id) s = s)) := by
  refine ⟨?_, ?_, ?_, ?_, ?_, ?_, ?_, ?_⟩
  · intro evs h
    exact Arcade.run_events_coins_nonneg choose evs s h
  · intro hg
    simp only [Arcade.step]
    rw [if_pos hg, Arcade.render_game_coins]
  · intro hlt
    simp only [Arcade.step]
    split
    · rename_i hg
      exact absurd hg.1 (by omega)
    · rfl
  · intro hg
    simp only [Arcade.step]
    rw [if_pos hg, Arcade.render_game_coins]
  · intro hlt
    simp only [Arcade.step]
    split
    · rename_i hg
      exact absurd hg.1 (by omega)
    · rfl
  · intro hg
    simp only [Arcade.step]
    rw [if_pos hg, Arcade.render_game_coins]
  · intro hlt
    simp only [Arcade.step]
    split
    · rename_i hg
      exact absurd hg.1 (by omega)
    · rfl
  · intro monster hmem hnot
    have hget := Arcade.get_monster_own_id monster hmem
    constructor
    · intro hle
      simp only [Arcade.step, hget]
      rw [if_pos ⟨hnot, hle⟩, Arcade.render_game_coins]
    · intro hlt
      simp only [Arcade.step, hget]
      split
      · rename_i hg
        exact absurd hg.2 (by omega)
      · rfl

/-- C6 (witness): from a fresh profile holding 10 coins, a hint purchase
in a started game deducts exactly 3 coins, a hint click on 2 coins is a
no-op, and any event sequence keeps the balance non-negative. -/
theorem C6_coin_balance_invariant_witness :
    0 ≤ (Arcade.run_events (fun _ => 0)
        { Arcade.init_state with coins := 10 } [.clickNewGame, .clickHint]).coins
    ∧ (Arcade.step (fun _ => 0) .clickHint
        { Arcade.init_state with coins := 10, started := true }).coins = 10 - Arcade.HINT_COST
    ∧ Arcade.step (fun _ => 0) .clickHint { Arcade.init_state with coins := 2 }
        = { Arcade.init_state with coins := 2 } :=
  ⟨(C6_coin_balance_invariant (fun _ => 0) { Arcade.init_state with coins := 10 }).1
      [.clickNewGame, .clickHint] (by decide),
   (C6_coin_balance_invariant (fun _ => 0)
      { Arcade.init_state with coins := 10, started := true }).2.1 ⟨by decide, rfl, rfl⟩,
   (C6_coin_balance_invariant (fun _ => 0) { Arcade.init_state with coins := 2 }).2.2.1 (by decide)⟩

/-- C7: the reward for a correct answer is BASE_COIN_REWARD +
min(streak, MAX_STREAK_BONUS), monotone non-decreasing in the streak and
bounded by BASE_COIN_REWARD + MAX_STREAK_BONUS. -/
theorem C7_reward_monotone_capped (s t : Arcade.SessionState) :
    Arcade.coins_for_correct s = Arcade.BASE_COIN_REWARD + min s.streak Arcade.MAX_STREAK_BONUS
    ∧ (s.streak ≤ t.streak → Arcade.coins_for_correct s ≤ Arcade.coins_for_correct t)
    ∧ Arcade.coins_for_correct s ≤ Arcade.BASE_COIN_REWARD + Arcade.MAX_STREAK_BONUS := by
  refine ⟨rfl, ?_, ?_⟩
  · intro h
    unfold Arcade.coins_for_correct
    omega
  · unfold Arcade.coins_for_correct
    omega

/-- C7 (witness): the reward at streak 2 is at most the reward at streak 9. -/
theorem C7_reward_monotone_capped_witness :
    Arcade.coins_for_correct { Arcade.init_state with streak := 2 }
      ≤ Arcade.coins_for_correct { Arcade.init_state with streak := 9 } :=
  (C7_reward_monotone_capped { Arcade.init_state with streak := 2 }
    { Arcade.init_state with streak := 9 }).2.1 (by decide)

/-- C8 (counterexample): a streak of 3 is reached mid-game and the game is
completed, yet the Streak Master badge is absent at game end, because the
fourth (wrong) answer reset the streak before badge evaluation. -/
theorem C8_counterexample_streak_master_lost :
    Arcade.streak_reset_mid_run.streak = 3
    ∧ Arcade.streak_reset_game_run.q_index = Arcade.streak_reset_game_run.question_ids.length
    ∧ "🔥 Streak Master (3+)" ∉ Arcade.streak_reset_game_run.badges := by
  decide

/-- C8 (amended): badge evaluation awards the Streak Master badge iff the
final streak value at that moment is at least BADGE_STREAK_THRESHOLD — the
current behavior uses the final streak at game end, not the maximum streak
reached during the game. -/
theorem C8_streak_master_iff_final_streak (s : Arcade.SessionState)
    (h : "🔥 Streak Master (3+)" ∉ s.badges) :
    ("🔥 Streak Master (3+)" ∈ (Arcade.award_badges s).badges
      ↔ Arcade.BADGE_STREAK_THRESHOLD ≤ s.streak) := by
  simp only [Arcade.award_badges]
  split_ifs <;> simp_all [Arcade.mem_setAdd]

/-- C8 (witness): a session with final streak 3 and no badge yet earns the
Streak Master badge at evaluation. -/
theorem C8_streak_master_iff_final_streak_witness :
    ("🔥 Streak Master (3+)" ∈ (Arcade.award_badges { Arcade.init_state with streak := 3 }).badges
      ↔ Arcade.BADGE_STREAK_THRESHOLD ≤ ({ Arcade.init_state with streak := 3 } : Arcade.SessionState).streak) :=
  C8_streak_master_iff_final_streak { Arcade.init_state with streak := 3 } (by decide)

/-- C9: when the analysis network call fails, or its content is not valid
JSON, run_analysis returns the empty result and reports an error; and
whenever the analysis result is empty, main never reaches the refactor
request. -/
theorem C9_analysis_failure_aborts (response : Except String String)
    (parse : String → Except String (List (String × String))) (generate_refactor : Bool) :
    ((∃ e, response = Except.error e) ∨ (∃ c e, response = Except.ok c ∧ parse c = Except.error e) →
      CodeChecker.run_analysis response parse = ([], true))
    ∧ ((CodeChecker.run_analysis response parse).1 = [] →
      CodeChecker.refactor_runs response parse generate_refactor = false) := by
  constructor
  · rintro (⟨e, rfl⟩ | ⟨c, e, rfl, hp⟩)
    · rfl
    · simp only [CodeChecker.run_analysis, hp]
  · intro h
    simp only [CodeChecker.refactor_runs]
    rw [if_pos h]

/-- C9 (witness): a failing network call yields the empty result with an
error reported. -/
theorem C9_analysis_failure_aborts_witness :
    CodeChecker.run_analysis (Except.error "connection refused")
      (fun _ => Except.ok [("language", "python")]) = ([], true) :=
  (C9_analysis_failure_aborts (Except.error "connection refused")
    (fun _ => Except.ok [("language", "python")]) true).1
    (Or.inl ⟨"connection refused", rfl⟩)

/-- C10: on a correct submit the streak is incremented before the coin
reward is computed: the Nth consecutive correct answer (prior streak
N - 1) awards BASE_COIN_REWARD + min(N, MAX_STREAK_BONUS) coins, so the
first correct answer after a reset awards 6 coins, not 5. -/
theorem C10_streak_increment_before_reward (choose : Nat → Nat) (s : Arcade.SessionState)
    (selected_index : Nat) (question_id : String) (question : Arcade.Question) (chosen : Nat)
    (hstart : s.started = true) (hans : s.answered = false)
    (hidx : s.q_index < s.question_ids.length)
    (hqid : s.question_ids[s.q_index]? = some question_id)
    (hq : Arcade.get_question_by_id question_id = some question)
    (hvis : (Arcade.get_visible_option_indices question s)[selected_index]? = some chosen)
    (hcorrect : chosen = question.answer_idx) :
    (Arcade.step choose (.submit selected_index) s).streak = s.streak + 1
    ∧ (Arcade.step choose (.submit selected_index) s).coins
        = s.coins + ((Arcade.BASE_COIN_REWARD + min (s.streak + 1) Arcade.MAX_STREAK_BONUS : Nat) : Int)
    ∧ (s.streak = 0 → (Arcade.step choose (.submit selected_index) s).coins = s.coins + 6) := by
  have hsub : Arcade.submit_answer selected_index s
      = { s with
          answered := true
          last_correct := some true
          score := s.score + 1
          streak := s.streak + 1
          coins := s.coins + ((Arcade.BASE_COIN_REWARD + min (s.streak + 1) Arcade.MAX_STREAK_BONUS : Nat) : Int) } := by
    unfold Arcade.submit_answer
    rw [if_pos ⟨hstart, hans, hidx⟩]
    simp only [hqid, hq, hvis]
    rw [if_pos hcorrect]
    rfl
  have hcoins := Arcade.render_game_coins choose (Arcade.submit_answer selected_index s)
  have hstreak := Arcade.render_game_streak choose (Arcade.submit_answer selected_index s)
  refine ⟨?_, ?_, ?_⟩
  · show (Arcade.render_game choose (Arcade.submit_answer selected_index s)).streak = s.streak + 1
    rw [hstreak, hsub]
  · show (Arcade.render_game choose (Arcade.submit_answer selected_index s)).coins
      = s.coins + ((Arcade.BASE_COIN_REWARD + min (s.streak + 1) Arcade.MAX_STREAK_BONUS : Nat) : Int)
    rw [hcoins, hsub]
  · intro h0
    show (Arcade.render_game choose (Arcade.submit_answer selected_index s)).coins = s.coins + 6
    rw [hcoins, hsub, h0]
    norm_num [Arcade.BASE_COIN_REWARD, Arcade.MAX_STREAK_BONUS]

/-- C10 (witness): in a fresh three-question game (streak 0) the first
correct answer awards 6 coins on a balance of 0. -/
theorem C10_streak_increment_before_reward_witness :
    (Arcade.step (fun _ => 0) (.submit 0) (Arcade.startGame (fun _ => 0) 3 Arcade.init_state)).coins
      = (Arcade.startGame (fun _ => 0) 3 Arcade.init_state).coins + 6 :=
  (C10_streak_increment_before_reward (fun _ => 0) (Arcade.startGame (fun _ => 0) 3 Arcade.init_state)
    0 "line_length" (Arcade.QUESTION_POOL.get ⟨0, by decide⟩) 0
    (by decide) (by decide) (by decide) (by decide) (by decide) (by decide) (by decide)).2.2 (by decide)
